import Mathlib

/-!
Shallow embedding of `torch/cuda/__init__.py`: the lazy-initialization state
machine (`_lazy_call`, `_lazy_init`), the fork-detection hook (`_after_fork`),
the availability probe (`is_available`), the driver check (`_check_driver`),
dynamic-library resolution (`_load_cudart`), the error translator
(`check_error` / `CudaError` / `cudaStatus`) and the `device` context manager.

Python module-level globals (`_initialized`, `_queued_calls`, `_in_bad_fork`,
`_original_pid`, `_cudart`, plus the runtime's current-device selector and the
`_CudaBase.__new__` fast-path flag) become an explicit `State` record threaded
through every operation.  A raised Python exception becomes an `Option CudaErr`
paired with the state as mutated up to the raise point (Python does not roll
back global mutations on an exception).  The opaque `torch._C` capability shim
becomes a `Shim` record of the values its queries return.  A queued callable
becomes an `Action`: an identifier (appended to `State.execLog` when the action
runs) plus a `fails` flag with the exception text it would raise.
-/

set_option maxRecDepth 16384

namespace TorchCuda

/-- A single quote character, used to build message strings faithfully. -/
def sq : String := (Char.ofNat 39).toString

/-- The capability shim `torch._C` and ambient process facts, as consumed by
this module: presence of `_cuda_isDriverSufficient`, its result, the driver
version, the device count, whether the main program exposes `cudaGetErrorName`
(for `_load_cudart`), the platform, the current pid, the Python version test
`version_info < (3, 4)`, and `cudaGetErrorString` of the loaded runtime. -/
structure Shim where
  hasDriverSufficient : Bool
  driverSufficient : Bool
  driverVersion : Nat
  deviceCount : Nat
  hasCudaGetErrorName : Bool
  isDarwin : Bool
  pid : Nat
  pyVersionLT34 : Bool
  errorString : Nat → String

/-- A deferred callable: `id` is logged when it runs; if `fails` it raises an
exception whose `str` is `errMsg` instead of running. -/
structure Action where
  id : Nat
  fails : Bool
  errMsg : String
deriving DecidableEq, Repr

/-- The module-level mutable globals, plus the runtime current-device global,
an execution log for queued callables, and the "current traceback" that
`traceback.format_stack()` would capture at an enqueue point. -/
structure State where
  initialized : Bool
  queued_calls : List (Action × String)
  in_bad_fork : Bool
  original_pid : Option Nat
  cudart_loaded : Bool
  currentDevice : Int
  execLog : List Nat
  stack : String
  cudaBaseNewIsLazy : Bool
deriving DecidableEq, Repr

/-- The module globals right after import: `_initialized = False`,
`_queued_calls = []`, `_in_bad_fork = False`, `_original_pid = False`,
`_cudart = None`; runtime default device 0; `_CudaBase.__new__ = _lazy_new`. -/
def initState : State :=
  { initialized := false, queued_calls := [], in_bad_fork := false,
    original_pid := none, cudart_loaded := false, currentDevice := 0,
    execLog := [], stack := "stack0", cudaBaseNewIsLazy := true }

/-- Python exceptions raised by this module, by class. -/
inductive CudaErr where
  | assertionError (msg : String)
  | runtimeError (msg : String)
  | deferredCudaCallError (msg : String)
  | cudaError (msg : String)
  | userError (msg : String)
deriving DecidableEq, Repr

/-- `str(e)` of an exception. -/
def CudaErr.text : CudaErr → String
  | .assertionError m => m
  | .runtimeError m => m
  | .deferredCudaCallError m => m
  | .cudaError m => m
  | .userError m => m

/-- `is_available`: `False` when `_cuda_isDriverSufficient` is absent or
returns false, else whether the device count is positive.  The state is
returned untouched: the probe reads only shim attributes. -/
def is_available (sh : Shim) (s : State) : Bool × State :=
  if !sh.hasDriverSufficient || !sh.driverSufficient then (false, s)
  else (decide (sh.deviceCount > 0), s)

/-- Message of the `RuntimeError` raised by `_load_cudart` (note the source
concatenates "installed in a" and "default location" without a space). -/
def libcudartMsg (isDarwin : Bool) : String :=
  "couldn" ++ sq ++ "t find libcudart. Make sure CUDA libraries are installed in a" ++
  "default location, or that they" ++ sq ++ "re in " ++
  (if isDarwin then "DYLD_LIBRARY_PATH" else "LD_LIBRARY_PATH") ++ "."

/-- `_load_cudart`: succeeds iff the main program exposes `cudaGetErrorName`;
otherwise raises a `RuntimeError` naming the platform search-path variable. -/
def _load_cudart (sh : Shim) : Option CudaErr :=
  if sh.hasCudaGetErrorName then none
  else some (.runtimeError (libcudartMsg sh.isDarwin))

/-- Message of the "found no NVIDIA driver" `AssertionError`. -/
def noDriverMsg : String :=
  "\nFound no NVIDIA driver on your system. Please check that you\nhave an NVIDIA GPU and installed a driver from\nhttp://www.nvidia.com/Download/index.aspx"

/-- Fixed prefix of the "driver too old" message, up to the version number. -/
def tooOldPre : String :=
  "\nThe NVIDIA driver on your system is too old (found version "

/-- Fixed suffix of the "driver too old" message, after the version number. -/
def tooOldSuf : String :=
  ").\nPlease update your GPU driver by downloading and installing a new\nversion from the URL: http://www.nvidia.com/Download/index.aspx\nAlternatively, go to: https://pytorch.org/binaries to install\na PyTorch version that has been compiled with your version\nof the CUDA driver."

/-- Message of the "driver too old" `AssertionError`, with `str(version)`
formatted in. -/
def tooOldMsg (v : Nat) : String := tooOldPre ++ toString v ++ tooOldSuf

/-- `_check_driver`: `AssertionError` when the shim lacks
`_cuda_isDriverSufficient`; when present but insufficient, the "no driver"
variant on version 0 and the "too old" variant otherwise; else success. -/
def _check_driver (sh : Shim) : Option CudaErr :=
  if !sh.hasDriverSufficient then
    some (.assertionError "Torch not compiled with CUDA enabled")
  else if !sh.driverSufficient then
    if sh.driverVersion = 0 then some (.assertionError noDriverMsg)
    else some (.assertionError (tooOldMsg sh.driverVersion))
  else none

/-- Run one callable: a failing one raises its exception and logs nothing, a
succeeding one appends its id to the execution log. -/
def runAction (a : Action) (s : State) : State × Option CudaErr :=
  if a.fails then (s, some (.userError a.errMsg))
  else ({ s with execLog := s.execLog ++ [a.id] }, none)

/-- `_lazy_call`: execute immediately when initialized, else append the
callable with the current formatted stack to `_queued_calls`. -/
def _lazy_call (a : Action) (s : State) : State × Option CudaErr :=
  if s.initialized then runAction a s
  else ({ s with queued_calls := s.queued_calls ++ [(a, s.stack)] }, none)

/-- The `DeferredCudaCallError` message wrapping the original exception text
and the traceback captured at enqueue time. -/
def deferredMsg (e tb : String) : String :=
  "CUDA call failed lazily at initialization with error: " ++ e ++
  "\n\nCUDA call was originally invoked at:\n\n" ++ tb

/-- The drain loop of `_lazy_init`: run the queued callables in order; on the
first exception, wrap it with its enqueue-time traceback into a
`DeferredCudaCallError` and stop. -/
def drain : List (Action × String) → State → State × Option CudaErr
  | [], s => (s, none)
  | (a, tb) :: rest, s =>
    match runAction a s with
    | (s1, none) => drain rest s1
    | (s1, some e) =>
      (s1, some (.deferredCudaCallError (deferredMsg e.text tb)))

/-- Message of the bad-fork `RuntimeError`, by Python version. -/
def reinitMsg (pyVersionLT34 : Bool) : String :=
  "Cannot re-initialize CUDA in forked subprocess. " ++
  (if pyVersionLT34 then
    "To use CUDA with multiprocessing, you must use Python 3.4+ and the " ++
      sq ++ "spawn" ++ sq ++ " start method"
   else
    "To use CUDA with multiprocessing, you must use the " ++
      sq ++ "spawn" ++ sq ++ " start method")

/-- `_lazy_init`: no-op when initialized; raise on a bad fork; run the driver
check, runtime init, `_load_cudart`; record the pid; set `_initialized`; drain
the queue (which is not cleared afterwards). -/
def _lazy_init (sh : Shim) (s : State) : State × Option CudaErr :=
  if s.initialized then (s, none)
  else if s.in_bad_fork then
    (s, some (.runtimeError (reinitMsg sh.pyVersionLT34)))
  else
    match _check_driver sh with
    | some e => (s, some e)
    | none =>
      match _load_cudart sh with
      | some e => (s, some e)
      | none =>
        let s1 := { s with cudart_loaded := true,
                           original_pid := some sh.pid,
                           initialized := true }
        drain s1.queued_calls s1

/-- `_after_fork`: in a process whose pid differs from the recorded one while
initialized, clear `_initialized`, set `_in_bad_fork`, and restore the
`_CudaBase.__new__ = _lazy_new` fast-path gate; otherwise do nothing. -/
def _after_fork (pid : Nat) (s : State) : State :=
  if s.initialized && decide (s.original_pid ≠ some pid) then
    { s with initialized := false, in_bad_fork := true,
             cudaBaseNewIsLazy := true }
  else s

/-- `cudaStatus.SUCCESS`. -/
def cudaStatus.SUCCESS : Nat := 0

/-- `cudaStatus.ERROR_NOT_READY`. -/
def cudaStatus.ERROR_NOT_READY : Nat := 34

/-- Message of a `CudaError`: `"{msg} ({code})"` with `msg` fetched through
`cudart().cudaGetErrorString`. -/
def cudaErrorMsg (sh : Shim) (code : Nat) : String :=
  sh.errorString code ++ " (" ++ toString code ++ ")"

/-- `check_error`: success code raises nothing; any other code constructs a
`CudaError`, whose constructor calls `cudart()` and hence `_lazy_init()`; an
exception from that initialization propagates instead of the `CudaError`. -/
def check_error (sh : Shim) (res : Nat) (s : State) : State × Option CudaErr :=
  if res = cudaStatus.SUCCESS then (s, none)
  else
    match _lazy_init sh s with
    | (s1, some e) => (s1, some e)
    | (s1, none) => (s1, some (.cudaError (cudaErrorMsg sh res)))

/-- The kind of an outcome of `check_error`: no exception, or which exception
class was raised. -/
def errKind : Option CudaErr → Nat
  | none => 0
  | some (.assertionError _) => 1
  | some (.runtimeError _) => 2
  | some (.deferredCudaCallError _) => 3
  | some (.cudaError _) => 4
  | some (.userError _) => 5

/-- The `device` context-manager object after `__init__(idx)`. -/
structure DeviceCtx where
  idx : Int
  prev_idx : Int
deriving DecidableEq, Repr

/-- `device.__init__`: store the index, initialize `prev_idx` to -1. -/
def device.init (idx : Int) : DeviceCtx := { idx := idx, prev_idx := -1 }

/-- `device.__enter__`: return at once when `self.idx is -1`; otherwise run
`_lazy_init`, record the current device, and switch when it differs. -/
def DeviceCtx.enter (sh : Shim) (d : DeviceCtx) (s : State) :
    DeviceCtx × State × Option CudaErr :=
  if d.idx = -1 then (d, s, none)
  else
    match _lazy_init sh s with
    | (s1, some e) => (d, s1, some e)
    | (s1, none) =>
      let d1 := { d with prev_idx := s1.currentDevice }
      if d1.prev_idx ≠ d1.idx then
        (d1, { s1 with currentDevice := d1.idx }, none)
      else (d1, s1, none)

/-- `device.__exit__`: restore the recorded device when it differs from the
target. -/
def DeviceCtx.exit (d : DeviceCtx) (s : State) : State :=
  if d.prev_idx ≠ d.idx then { s with currentDevice := d.prev_idx } else s

/-- Enqueue a sequence of callables through `_lazy_call`, keeping the state. -/
def runCalls (as : List Action) (s : State) : State :=
  as.foldl (fun s a => (_lazy_call a s).1) s

/-- The operations of this module that touch the shared state, used to model
an arbitrary sequence of subsequent calls. -/
inductive Op where
  | lazyCall (a : Action)
  | lazyInit (sh : Shim)
  | afterFork (pid : Nat)
  | checkErrorOp (sh : Shim) (code : Nat)
  | deviceEnter (sh : Shim) (idx : Int)
  | isAvailableOp (sh : Shim)

/-- State effect of one operation (a raised exception leaves the state as
mutated up to the raise). -/
def runOp (o : Op) (s : State) : State :=
  match o with
  | .lazyCall a => (_lazy_call a s).1
  | .lazyInit sh => (_lazy_init sh s).1
  | .afterFork pid => _after_fork pid s
  | .checkErrorOp sh c => (check_error sh c s).1
  | .deviceEnter sh idx => ((device.init idx).enter sh s).2.1
  | .isAvailableOp sh => (is_available sh s).2

/-- State effect of a sequence of operations. -/
def runOps (ops : List Op) (s : State) : State :=
  ops.foldl (fun s o => runOp o s) s

/-- A shim with a working driver, a device, and a resolvable runtime. -/
def goodShim : Shim :=
  { hasDriverSufficient := true, driverSufficient := true, driverVersion := 9010,
    deviceCount := 1, hasCudaGetErrorName := true, isDarwin := false,
    pid := 100, pyVersionLT34 := false, errorString := fun _ => "unknown error" }

/-- A build without CUDA: the `_cuda_isDriverSufficient` symbol is absent. -/
def noCudaShim : Shim :=
  { goodShim with hasDriverSufficient := false }

/-- A shim whose driver-version query returns 0 (no driver installed). -/
def noDriverShim : Shim :=
  { goodShim with driverSufficient := false, driverVersion := 0 }

/-- A shim reporting an insufficient driver of version 5000. -/
def oldDriverShim : Shim :=
  { goodShim with driverSufficient := false, driverVersion := 5000 }

/-- The state after one successful `_lazy_init` from the import-time state. -/
def readyState : State := (_lazy_init goodShim initState).1

/-- An import-time state whose queue holds a callable that will raise,
between two that succeed. -/
def failQueueState : State :=
  { initState with
      queued_calls := [(⟨1, false, ""⟩, "tb1"), (⟨2, true, "boom"⟩, "tb2"),
                       (⟨3, false, ""⟩, "tb3")] }

/-- The phrase naming the duplication-safe start mode in the bad-fork
message. -/
def spawnPhrase : String := sq ++ "spawn" ++ sq ++ " start method"

theorem drain_ok (q : List (Action × String)) (s : State)
    (h : ∀ p ∈ q, p.1.fails = false) :
    drain q s = ({ s with execLog := s.execLog ++ q.map fun p => p.1.id }, none) := by
  induction q generalizing s with
  | nil => simp [drain]
  | cons x rest ih =>
    obtain ⟨a, tb⟩ := x
    have ha : a.fails = false := h (a, tb) (List.mem_cons_self _ _)
    have hrest : ∀ p ∈ rest, p.1.fails = false :=
      fun p hp => h p (List.mem_cons_of_mem _ hp)
    simp [drain, runAction, ha, ih _ hrest]

theorem drain_fail (q1 : List (Action × String)) (b : Action) (tb : String)
    (q2 : List (Action × String)) (s : State)
    (h1 : ∀ p ∈ q1, p.1.fails = false) (hb : b.fails = true) :
    drain (q1 ++ (b, tb) :: q2) s =
      ({ s with execLog := s.execLog ++ q1.map fun p => p.1.id },
       some (.deferredCudaCallError (deferredMsg b.errMsg tb))) := by
  induction q1 generalizing s with
  | nil => simp [drain, runAction, hb, CudaErr.text]
  | cons x rest ih =>
    obtain ⟨a, tb1⟩ := x
    have ha : a.fails = false := h1 (a, tb1) (List.mem_cons_self _ _)
    have hrest : ∀ p ∈ rest, p.1.fails = false :=
      fun p hp => h1 p (List.mem_cons_of_mem _ hp)
    simp [drain, runAction, ha, ih _ hrest]

theorem drain_total (q : List (Action × String)) :
    (∀ p ∈ q, p.1.fails = false) ∨
    ∃ q1 b tb q2, q = q1 ++ (b, tb) :: q2 ∧ b.fails = true ∧
      ∀ p ∈ q1, p.1.fails = false := by
  induction q with
  | nil => left; simp
  | cons x rest ih =>
    obtain ⟨a, tb⟩ := x
    by_cases ha : a.fails = true
    · right; exact ⟨[], a, tb, rest, rfl, ha, by simp⟩
    · rcases ih with hok | ⟨q1, b, tb1, q2, rfl, hb, h1⟩
      · left
        intro p hp
        rcases List.mem_cons.mp hp with rfl | hp
        · simpa using ha
        · exact hok p hp
      · right
        refine ⟨(a, tb) :: q1, b, tb1, q2, rfl, hb, ?_⟩
        intro p hp
        rcases List.mem_cons.mp hp with rfl | hp
        · simpa using ha
        · exact h1 p hp

theorem drain_spec (q : List (Action × String)) (s : State) :
    ((∀ p ∈ q, p.1.fails = false) ∧
      drain q s = ({ s with execLog := s.execLog ++ q.map fun p => p.1.id }, none)) ∨
    (∃ q1 b tb q2, q = q1 ++ (b, tb) :: q2 ∧ b.fails = true ∧
      (∀ p ∈ q1, p.1.fails = false) ∧
      drain q s = ({ s with execLog := s.execLog ++ q1.map fun p => p.1.id },
        some (.deferredCudaCallError (deferredMsg b.errMsg tb)))) := by
  rcases drain_total q with hok | ⟨q1, b, tb, q2, rfl, hb, h1⟩
  · exact Or.inl ⟨hok, drain_ok q s hok⟩
  · exact Or.inr ⟨q1, b, tb, q2, rfl, hb, h1, drain_fail q1 b tb q2 s h1 hb⟩

theorem lazy_init_run (sh : Shim) (s : State)
    (h1 : sh.hasDriverSufficient = true) (h2 : sh.driverSufficient = true)
    (h3 : sh.hasCudaGetErrorName = true) (h4 : s.initialized = false)
    (h5 : s.in_bad_fork = false) :
    _lazy_init sh s =
      drain s.queued_calls
        { s with cudart_loaded := true, original_pid := some sh.pid,
                 initialized := true } := by
  simp [_lazy_init, _check_driver, _load_cudart, h1, h2, h3, h4, h5]

theorem lazy_init_shape (sh : Shim) (s : State) (h0 : s.initialized = false) :
    (s.in_bad_fork = true ∧
       _lazy_init sh s = (s, some (.runtimeError (reinitMsg sh.pyVersionLT34)))) ∨
    (s.in_bad_fork = false ∧
       ∃ e1, _check_driver sh = some e1 ∧ _lazy_init sh s = (s, some e1)) ∨
    (s.in_bad_fork = false ∧ _check_driver sh = none ∧
       ∃ e2, _load_cudart sh = some e2 ∧ _lazy_init sh s = (s, some e2)) ∨
    (s.in_bad_fork = false ∧ _check_driver sh = none ∧ _load_cudart sh = none ∧
       _lazy_init sh s = drain s.queued_calls
         { s with cudart_loaded := true, original_pid := some sh.pid,
                  initialized := true }) := by
  by_cases hbf : s.in_bad_fork = true
  · exact Or.inl ⟨hbf, by simp [_lazy_init, h0, hbf]⟩
  · rw [Bool.not_eq_true] at hbf
    rcases hcd : _check_driver sh with _ | e1
    · rcases hlc : _load_cudart sh with _ | e2
      · exact Or.inr (Or.inr (Or.inr ⟨hbf, rfl, rfl,
          by simp [_lazy_init, h0, hbf, hcd, hlc]⟩))
      · exact Or.inr (Or.inr (Or.inl ⟨hbf, rfl, e2, rfl,
          by simp [_lazy_init, h0, hbf, hcd, hlc]⟩))
    · exact Or.inr (Or.inl ⟨hbf, e1, rfl, by simp [_lazy_init, h0, hbf, hcd]⟩)

theorem runCalls_spec (as : List Action) (s : State) (h : s.initialized = false) :
    runCalls as s =
      { s with queued_calls := s.queued_calls ++ as.map fun a => (a, s.stack) } := by
  induction as generalizing s with
  | nil => simp [runCalls]
  | cons a rest ih =>
    have step : (_lazy_call a s).1 =
        { s with queued_calls := s.queued_calls ++ [(a, s.stack)] } := by
      simp [_lazy_call, h]
    have h1 : (_lazy_call a s).1.initialized = false := by rw [step]; exact h
    calc runCalls (a :: rest) s = runCalls rest (_lazy_call a s).1 := rfl
      _ = _ := by rw [ih _ h1, step]; simp

theorem is_available_state (sh : Shim) (s : State) : (is_available sh s).2 = s := by
  unfold is_available
  split <;> rfl

theorem runOp_bad_fork (o : Op) (s : State)
    (h1 : s.in_bad_fork = true) (h2 : s.initialized = false) :
    (runOp o s).in_bad_fork = true ∧ (runOp o s).initialized = false := by
  cases o with
  | lazyCall a => simp [runOp, _lazy_call, h1, h2]
  | lazyInit sh => simp [runOp, _lazy_init, h1, h2]
  | afterFork pid => simp [runOp, _after_fork, h1, h2]
  | checkErrorOp sh c =>
    by_cases hc : c = cudaStatus.SUCCESS <;>
      simp [runOp, check_error, _lazy_init, h1, h2, hc]
  | deviceEnter sh idx =>
    by_cases hi : idx = -1 <;>
      simp [runOp, DeviceCtx.enter, device.init, _lazy_init, h1, h2, hi]
  | isAvailableOp sh => simp [runOp, is_available_state, h1, h2]

theorem runOps_bad_fork (ops : List Op) (s : State)
    (h1 : s.in_bad_fork = true) (h2 : s.initialized = false) :
    (runOps ops s).in_bad_fork = true ∧ (runOps ops s).initialized = false := by
  induction ops generalizing s with
  | nil => exact ⟨h1, h2⟩
  | cons o rest ih =>
    have h := runOp_bad_fork o s h1 h2
    exact ih (runOp o s) h.1 h.2

theorem check_driver_err (sh : Shim) (e : CudaErr) (h : _check_driver sh = some e) :
    ∃ m, e = .assertionError m := by
  unfold _check_driver at h
  split at h
  · exact ⟨_, (Option.some_injective _ h).symm⟩
  · split at h
    · split at h
      · exact ⟨_, (Option.some_injective _ h).symm⟩
      · exact ⟨_, (Option.some_injective _ h).symm⟩
    · exact absurd h (by simp)

theorem load_cudart_err (sh : Shim) (e : CudaErr) (h : _load_cudart sh = some e) :
    ∃ m, e = .runtimeError m := by
  unfold _load_cudart at h
  split at h
  · exact absurd h (by simp)
  · exact ⟨_, (Option.some_injective _ h).symm⟩

theorem lazy_init_err_class (sh : Shim) (s : State) (e : CudaErr)
    (he : (_lazy_init sh s).2 = some e) :
    (∀ m, e ≠ .cudaError m) ∧ (∀ m, e ≠ .userError m) := by
  by_cases h0 : s.initialized = true
  · simp [_lazy_init, h0] at he
  · rw [Bool.not_eq_true] at h0
    rcases lazy_init_shape sh s h0 with ⟨_, heq⟩ | ⟨_, e1, hcd, heq⟩ |
      ⟨_, _, e2, hlc, heq⟩ | ⟨_, _, _, heq⟩
    · rw [heq] at he
      obtain rfl := Option.some_injective _ he
      exact ⟨fun m => by simp, fun m => by simp⟩
    · rw [heq] at he
      obtain rfl := Option.some_injective _ he
      obtain ⟨m, rfl⟩ := check_driver_err sh e1 hcd
      exact ⟨fun m => by simp, fun m => by simp⟩
    · rw [heq] at he
      obtain rfl := Option.some_injective _ he
      obtain ⟨m, rfl⟩ := load_cudart_err sh e2 hlc
      exact ⟨fun m => by simp, fun m => by simp⟩
    · rw [heq] at he
      rcases drain_spec s.queued_calls
          { s with cudart_loaded := true, original_pid := some sh.pid,
                   initialized := true } with ⟨_, hd⟩ | ⟨q1, b, tb, q2, _, _, _, hd⟩
      · rw [hd] at he; simp at he
      · rw [hd] at he
        obtain rfl := Option.some_injective _ he
        exact ⟨fun m => by simp, fun m => by simp⟩

theorem lazy_init_success_spec (sh : Shim) (s : State) (h0 : s.initialized = false)
    (he : (_lazy_init sh s).2 = none) :
    (_lazy_init sh s).1.initialized = true ∧
    (_lazy_init sh s).1.queued_calls = s.queued_calls ∧
    (_lazy_init sh s).1.execLog = s.execLog ++ s.queued_calls.map fun p => p.1.id := by
  rcases lazy_init_shape sh s h0 with ⟨_, heq⟩ | ⟨_, e1, _, heq⟩ |
    ⟨_, _, e2, _, heq⟩ | ⟨_, _, _, heq⟩
  · rw [heq] at he; simp at he
  · rw [heq] at he; simp at he
  · rw [heq] at he; simp at he
  · rcases drain_spec s.queued_calls
        { s with cudart_loaded := true, original_pid := some sh.pid,
                 initialized := true } with ⟨_, hd⟩ | ⟨q1, b, tb, q2, _, _, _, hd⟩
    · rw [heq, hd]; simp
    · rw [heq, hd] at he; simp at he

/-- C1: actions enqueued through `_lazy_call` before the first successful
`_lazy_init` are all executed during the drain step of that `_lazy_init`,
exactly once each, in enqueue order (the execution log extends by exactly the
list of enqueued ids, preserving duplicates). -/
theorem C1_fifo_order (sh : Shim) (s : State) (as : List Action)
    (h1 : sh.hasDriverSufficient = true) (h2 : sh.driverSufficient = true)
    (h3 : sh.hasCudaGetErrorName = true) (h4 : s.initialized = false)
    (h5 : s.in_bad_fork = false) (h6 : s.queued_calls = [])
    (h7 : ∀ a ∈ as, a.fails = false) :
    (_lazy_init sh (runCalls as s)).2 = none ∧
    (_lazy_init sh (runCalls as s)).1.execLog = s.execLog ++ as.map Action.id := by
  rw [runCalls_spec as s h4]
  rw [lazy_init_run sh _ h1 h2 h3 (by simpa using h4) (by simpa using h5)]
  rw [show ({ s with queued_calls := s.queued_calls ++ as.map fun a => (a, s.stack) } : State).queued_calls = s.queued_calls ++ as.map fun a => (a, s.stack) from rfl]
  rw [h6]
  rw [drain_ok]
  · constructor
    · rfl
    · simp [List.map_map, Function.comp]
  · intro p hp
    simp only [List.nil_append, List.mem_map] at hp
    obtain ⟨a, ha, rfl⟩ := hp
    exact h7 a ha

/-- C1 witness: three callables, two sharing an id, run in order with no
deduplication. -/
theorem C1_fifo_order_witness :
    (_lazy_init goodShim (runCalls
        [⟨5, false, ""⟩, ⟨5, false, ""⟩, ⟨7, false, ""⟩] initState)).2 = none ∧
    (_lazy_init goodShim (runCalls
        [⟨5, false, ""⟩, ⟨5, false, ""⟩, ⟨7, false, ""⟩] initState)).1.execLog
      = [5, 5, 7] :=
  C1_fifo_order goodShim initState [⟨5, false, ""⟩, ⟨5, false, ""⟩, ⟨7, false, ""⟩]
    rfl rfl rfl rfl rfl rfl (by decide)

/-- C2: when a queued callable raises during the drain step, no callable
enqueued after it runs (the log extends by exactly the ids preceding the
failure), and `_lazy_init` raises a `DeferredCudaCallError` whose message
contains the original exception text and the traceback captured at enqueue
time. -/
theorem C2_drain_failfast (sh : Shim) (s : State) (q1 : List (Action × String))
    (b : Action) (tb : String) (q2 : List (Action × String))
    (h1 : sh.hasDriverSufficient = true) (h2 : sh.driverSufficient = true)
    (h3 : sh.hasCudaGetErrorName = true) (h4 : s.initialized = false)
    (h5 : s.in_bad_fork = false)
    (h6 : s.queued_calls = q1 ++ (b, tb) :: q2)
    (h7 : ∀ p ∈ q1, p.1.fails = false) (h8 : b.fails = true) :
    (_lazy_init sh s).2
      = some (.deferredCudaCallError (deferredMsg b.errMsg tb)) ∧
    (_lazy_init sh s).1.execLog = s.execLog ++ q1.map (fun p => p.1.id) ∧
    (∃ u v, deferredMsg b.errMsg tb = u ++ b.errMsg ++ v) ∧
    ∃ w, deferredMsg b.errMsg tb = w ++ tb := by
  rw [lazy_init_run sh s h1 h2 h3 h4 h5]
  rw [show ({ s with cudart_loaded := true, original_pid := some sh.pid, initialized := true } : State).queued_calls = s.queued_calls from rfl, h6]
  rw [drain_fail q1 b tb q2 _ h7 h8]
  refine ⟨rfl, rfl,
    ⟨"CUDA call failed lazily at initialization with error: ",
     "\n\nCUDA call was originally invoked at:\n\n" ++ tb, ?_⟩, ⟨_, rfl⟩⟩
  simp [deferredMsg, String.append_assoc]

/-- C2 witness: the second of three queued callables raises; only the first
runs, and the error wraps the text "boom" with the stack "tb2". -/
theorem C2_drain_failfast_witness :
    (_lazy_init goodShim failQueueState).2
      = some (.deferredCudaCallError (deferredMsg "boom" "tb2")) ∧
    (_lazy_init goodShim failQueueState).1.execLog = [1] ∧
    (∃ u v, deferredMsg "boom" "tb2" = u ++ "boom" ++ v) ∧
    ∃ w, deferredMsg "boom" "tb2" = w ++ "tb2" :=
  C2_drain_failfast goodShim failQueueState [(⟨1, false, ""⟩, "tb1")]
    ⟨2, true, "boom"⟩ "tb2" [(⟨3, false, ""⟩, "tb3")]
    rfl rfl rfl rfl rfl rfl (by decide) rfl

/-- C3: if the after-fork hook fires while initialized with a differing pid,
then every later `_lazy_init`, after any sequence of module operations, raises
the re-initialization `RuntimeError`, whose message names the duplication-safe
"spawn" start method; and the hook is the identity on any state that is not
initialized. -/
theorem C3_after_fork (pid : Nat) (sh : Shim) :
    (∀ (s : State) (ops : List Op), s.initialized = true →
      s.original_pid ≠ some pid →
      (_lazy_init sh (runOps ops (_after_fork pid s))).2
        = some (.runtimeError (reinitMsg sh.pyVersionLT34))) ∧
    (∃ u, reinitMsg sh.pyVersionLT34 = u ++ spawnPhrase) ∧
    (∀ s : State, s.initialized = false → _after_fork pid s = s) := by
  refine ⟨?_, ?_, ?_⟩
  · intro s ops hi hp
    have hf : _after_fork pid s =
        { s with initialized := false, in_bad_fork := true,
                 cudaBaseNewIsLazy := true } := by
      simp [_after_fork, hi, hp]
    have hinv := runOps_bad_fork ops (_after_fork pid s)
      (by rw [hf]) (by rw [hf])
    simp [_lazy_init, hinv.1, hinv.2]
  · cases hv : sh.pyVersionLT34
    · exact ⟨"Cannot re-initialize CUDA in forked subprocess. To use CUDA with multiprocessing, you must use the ", by decide⟩
    · exact ⟨"Cannot re-initialize CUDA in forked subprocess. To use CUDA with multiprocessing, you must use Python 3.4+ and the ", by decide⟩
  · intro s hi
    simp [_after_fork, hi]

/-- C3 witness: fork detected after a successful init (pid 100 recorded,
current pid 999); a later enqueue then `_lazy_init` raises the spawn-method
error; and the hook leaves the import-time state untouched. -/
theorem C3_after_fork_witness :
    ((_lazy_init goodShim (runOps [Op.lazyCall ⟨1, false, ""⟩]
        (_after_fork 999 readyState))).2
      = some (.runtimeError (reinitMsg false))) ∧
    _after_fork 999 initState = initState := by
  have h := C3_after_fork 999 goodShim
  exact ⟨h.1 readyState [Op.lazyCall ⟨1, false, ""⟩] (by decide) (by decide),
    h.2.2 initState rfl⟩

/-- C4 counterexample: on an initialized state, `check_error` of the
`ERROR_NOT_READY` code and of another non-success code produce outcomes of
the same kind (both raise `CudaError`), so the not-ready outcome is not
distinguishable by kind from other non-success outcomes. -/
theorem C4_counterexample :
    errKind (check_error goodShim cudaStatus.ERROR_NOT_READY readyState).2
      = errKind (check_error goodShim 11 readyState).2 := by decide

/-- C4 amended: `check_error` raises nothing for the success code and raises
a `CudaError` for every other code, the not-ready code included: not-ready is
distinguishable by kind from success only; `cudaStatus` exposes
`ERROR_NOT_READY` as a distinct constant for polling callers to compare codes
themselves. -/
theorem C4_kinds (sh : Shim) (s : State) (c : Nat)
    (hs : s.initialized = true) (hc : c ≠ cudaStatus.SUCCESS) :
    errKind (check_error sh cudaStatus.SUCCESS s).2 = 0 ∧
    errKind (check_error sh c s).2 = 4 ∧
    errKind (check_error sh cudaStatus.ERROR_NOT_READY s).2 = 4 ∧
    cudaStatus.ERROR_NOT_READY ≠ cudaStatus.SUCCESS := by
  have hinit : _lazy_init sh s = (s, none) := by simp [_lazy_init, hs]
  refine ⟨by simp [check_error, errKind], ?_, ?_, by decide⟩
  · simp [check_error, hc, hinit, errKind]
  · simp [check_error, cudaStatus.ERROR_NOT_READY, cudaStatus.SUCCESS, hinit,
      errKind]

/-- C4 witness: the amended kind map evaluated on an initialized state with
non-success code 11. -/
theorem C4_kinds_witness :
    errKind (check_error goodShim cudaStatus.SUCCESS readyState).2 = 0 ∧
    errKind (check_error goodShim 11 readyState).2 = 4 ∧
    errKind (check_error goodShim cudaStatus.ERROR_NOT_READY readyState).2 = 4 ∧
    cudaStatus.ERROR_NOT_READY ≠ cudaStatus.SUCCESS :=
  C4_kinds goodShim readyState 11 (by decide) (by decide)

/-- C5 counterexample: one callable enqueued before a successful `_lazy_init`;
afterwards `_initialized` is true yet `_queued_calls` is still non-empty,
because the drain loop never clears the list. -/
theorem C5_counterexample :
    (_lazy_init goodShim (_lazy_call ⟨5, false, ""⟩ initState).1).2 = none ∧
    (_lazy_init goodShim (_lazy_call ⟨5, false, ""⟩ initState).1).1.initialized
      = true ∧
    (_lazy_init goodShim (_lazy_call ⟨5, false, ""⟩ initState).1).1.queued_calls
      ≠ [] := by decide

/-- C5 amended: `_lazy_call` appends to `_queued_calls` only while
`_initialized` is false; a successful `_lazy_init` executes every queued
callable but does not clear the list, and once initialized `_lazy_init`
returns immediately, so the stale entries never run again. -/
theorem C5_queue_discipline :
    (∀ (a : Action) (s : State), s.initialized = true →
      (_lazy_call a s).1.queued_calls = s.queued_calls) ∧
    (∀ (sh : Shim) (s : State), s.initialized = false →
      (_lazy_init sh s).2 = none →
      (_lazy_init sh s).1.queued_calls = s.queued_calls ∧
      (_lazy_init sh s).1.execLog
        = s.execLog ++ s.queued_calls.map fun p => p.1.id) ∧
    (∀ (sh : Shim) (s : State), s.initialized = true →
      _lazy_init sh s = (s, none)) := by
  refine ⟨?_, ?_, ?_⟩
  · intro a s hs
    by_cases hf : a.fails <;> simp [_lazy_call, runAction, hs, hf]
  · intro sh s hs he
    exact ⟨(lazy_init_success_spec sh s hs he).2.1,
      (lazy_init_success_spec sh s hs he).2.2⟩
  · intro sh s hs
    simp [_lazy_init, hs]

/-- C5 witness: the amended discipline evaluated on concrete states. -/
theorem C5_queue_discipline_witness :
    (_lazy_call ⟨9, false, ""⟩ readyState).1.queued_calls
      = readyState.queued_calls ∧
    (_lazy_init goodShim (_lazy_call ⟨5, false, ""⟩ initState).1).1.queued_calls
      = (_lazy_call ⟨5, false, ""⟩ initState).1.queued_calls ∧
    _lazy_init goodShim readyState = (readyState, none) :=
  ⟨C5_queue_discipline.1 ⟨9, false, ""⟩ readyState (by decide),
   (C5_queue_discipline.2.1 goodShim (_lazy_call ⟨5, false, ""⟩ initState).1
     (by decide) (by decide)).1,
   C5_queue_discipline.2.2 goodShim readyState (by decide)⟩

/-- C6: evaluation at the failing input.  `device.__enter__` no-ops for index
-1 but, for the negative index -2, runs `_lazy_init` and switches the current
device to -2, contradicting the docstring "no-op if this argument is
negative". -/
theorem C6_negative_index_enter :
    ((device.init (-1)).enter goodShim initState).2.1 = initState ∧
    ((device.init (-1)).enter goodShim initState).2.2 = none ∧
    ((device.init (-2)).enter goodShim initState).2.1.currentDevice = -2 ∧
    ((device.init (-2)).enter goodShim initState).2.1.initialized = true ∧
    initState.currentDevice = 0 := by decide

/-- C7: `is_available` returns false when the `_cuda_isDriverSufficient`
symbol is absent, and leaves every initialization global unchanged. -/
theorem C7_is_available_pure (sh : Shim) (s : State) :
    (sh.hasDriverSufficient = false → (is_available sh s).1 = false) ∧
    (is_available sh s).2.initialized = s.initialized ∧
    (is_available sh s).2.queued_calls = s.queued_calls ∧
    (is_available sh s).2.in_bad_fork = s.in_bad_fork ∧
    (is_available sh s).2.original_pid = s.original_pid ∧
    (is_available sh s).2.cudart_loaded = s.cudart_loaded := by
  refine ⟨fun h => by simp [is_available, h], ?_, ?_, ?_, ?_, ?_⟩ <;>
    rw [is_available_state]

/-- C7 witness: the probe on a CUDA-less build and the import-time state. -/
theorem C7_is_available_pure_witness :
    (is_available noCudaShim initState).1 = false ∧
    (is_available noCudaShim initState).2.initialized = initState.initialized :=
  ⟨(C7_is_available_pure noCudaShim initState).1 rfl,
   (C7_is_available_pure noCudaShim initState).2.1⟩

/-- C8: with the driver reported insufficient, `_lazy_init` raises the "no
driver found" variant when the version query returns 0 and the "too old"
variant embedding the version otherwise; the two message variants are
distinct for every version. -/
theorem C8_driver_messages (sh : Shim) (s : State)
    (h1 : sh.hasDriverSufficient = true) (h2 : sh.driverSufficient = false)
    (h3 : s.initialized = false) (h4 : s.in_bad_fork = false) :
    (sh.driverVersion = 0 →
      (_lazy_init sh s).2 = some (.assertionError noDriverMsg)) ∧
    (sh.driverVersion ≠ 0 →
      (_lazy_init sh s).2
        = some (.assertionError (tooOldMsg sh.driverVersion)) ∧
      ∃ u v, tooOldMsg sh.driverVersion = u ++ toString sh.driverVersion ++ v) ∧
    (∀ v : Nat, noDriverMsg ≠ tooOldMsg v) := by
  refine ⟨?_, ?_, ?_⟩
  · intro hv
    simp [_lazy_init, _check_driver, h1, h2, h3, h4, hv]
  · intro hv
    exact ⟨by simp [_lazy_init, _check_driver, h1, h2, h3, h4, hv],
      tooOldPre, tooOldSuf, rfl⟩
  · intro v h
    have hlen := congrArg String.length h
    rw [tooOldMsg, String.length_append, String.length_append] at hlen
    have e1 : noDriverMsg.length = 150 := by decide
    have e2 : tooOldPre.length = 60 := by decide
    have e3 : tooOldSuf.length = 273 := by decide
    omega

/-- C8 witness: version 0 and version 5000 produce the two distinct message
variants. -/
theorem C8_driver_messages_witness :
    (_lazy_init noDriverShim initState).2
      = some (.assertionError noDriverMsg) ∧
    (_lazy_init oldDriverShim initState).2
      = some (.assertionError (tooOldMsg 5000)) ∧
    noDriverMsg ≠ tooOldMsg 5000 :=
  ⟨(C8_driver_messages noDriverShim initState rfl rfl rfl rfl).1 rfl,
   ((C8_driver_messages oldDriverShim initState rfl rfl rfl rfl).2.1
     (by decide)).1,
   (C8_driver_messages oldDriverShim initState rfl rfl rfl rfl).2.2 5000⟩

theorem check_error_nonzero (sh : Shim) (c : Nat) (s : State)
    (hc : c ≠ cudaStatus.SUCCESS) :
    check_error sh c s =
      match _lazy_init sh s with
      | (s1, some e) => (s1, some e)
      | (s1, none) => (s1, some (.cudaError (cudaErrorMsg sh c))) := by
  simp [check_error, hc]

/-- C9: when `_lazy_init` raises before setting `_initialized` (bad fork,
driver check, or library resolution), the state is left exactly as it was; a
drain failure instead leaves `_initialized` true with exactly the queued
callables before the failing one having run. -/
theorem C9_failure_states (sh : Shim) (s : State) (e : CudaErr)
    (h0 : s.initialized = false) (he : (_lazy_init sh s).2 = some e) :
    ((∀ m, e ≠ CudaErr.deferredCudaCallError m) → (_lazy_init sh s).1 = s) ∧
    (∀ m, e = CudaErr.deferredCudaCallError m →
      (_lazy_init sh s).1.initialized = true ∧
      ∃ q1 b tb q2, s.queued_calls = q1 ++ (b, tb) :: q2 ∧ b.fails = true ∧
        (∀ p ∈ q1, p.1.fails = false) ∧
        (_lazy_init sh s).1.execLog = s.execLog ++ q1.map fun p => p.1.id) := by
  rcases lazy_init_shape sh s h0 with ⟨_, heq⟩ | ⟨_, e1, hcd, heq⟩ |
      ⟨_, _, e2, hlc, heq⟩ | ⟨_, _, _, heq⟩
  · rw [heq] at he ⊢
    obtain rfl := Option.some_injective _ he
    exact ⟨fun _ => rfl, fun m hm => by simp at hm⟩
  · rw [heq] at he ⊢
    obtain rfl := Option.some_injective _ he
    obtain ⟨m1, rfl⟩ := check_driver_err sh e1 hcd
    exact ⟨fun _ => rfl, fun m hm => by simp at hm⟩
  · rw [heq] at he ⊢
    obtain rfl := Option.some_injective _ he
    obtain ⟨m2, rfl⟩ := load_cudart_err sh e2 hlc
    exact ⟨fun _ => rfl, fun m hm => by simp at hm⟩
  · rcases drain_spec s.queued_calls
        { s with cudart_loaded := true, original_pid := some sh.pid,
                 initialized := true } with ⟨_, hd⟩ | ⟨q1, b, tb, q2, hq, hb, hq1, hd⟩
    · rw [heq, hd] at he
      simp at he
    · rw [heq, hd] at he ⊢
      obtain rfl := Option.some_injective _ he
      refine ⟨fun hne => absurd rfl (hne _), fun m _ => ⟨rfl, q1, b, tb, q2, hq, hb, hq1, rfl⟩⟩

/-- C9 witness: a driver failure leaves the import-time state untouched; a
drain failure leaves the machine initialized. -/
theorem C9_failure_states_witness :
    (_lazy_init oldDriverShim initState).1 = initState ∧
    (_lazy_init goodShim failQueueState).1.initialized = true :=
  ⟨(C9_failure_states oldDriverShim initState
      (.assertionError (tooOldMsg 5000)) rfl (by decide)).1 (fun m => by simp),
   ((C9_failure_states goodShim failQueueState
      (.deferredCudaCallError (deferredMsg "boom" "tb2")) rfl (by decide)).2
      (deferredMsg "boom" "tb2") rfl).1⟩

/-- C10: for a non-success code on an uninitialized state, `check_error`
constructs its `CudaError` through `cudart()` and hence `_lazy_init()`: a
successful initialization happens as a side effect, and a failing one makes
the caller receive the initialization error (never a `CudaError`) in place of
a `CudaError` for the original code. -/
theorem C10_check_error_inits (sh : Shim) (s : State) (c : Nat)
    (hc : c ≠ cudaStatus.SUCCESS) (hs : s.initialized = false) :
    ((_lazy_init sh s).2 = none →
      (check_error sh c s).1.initialized = true ∧
      (check_error sh c s).2 = some (.cudaError (cudaErrorMsg sh c))) ∧
    (∀ e, (_lazy_init sh s).2 = some e →
      check_error sh c s = ((_lazy_init sh s).1, some e) ∧
      ∀ m, e ≠ CudaErr.cudaError m) := by
  constructor
  · intro he
    have h1 := (lazy_init_success_spec sh s hs he).1
    rw [check_error_nonzero sh c s hc]
    rcases hli : _lazy_init sh s with ⟨s1, r⟩
    rw [hli] at he h1
    simp only at he
    subst he
    exact ⟨h1, rfl⟩
  · intro e he
    have hclass := lazy_init_err_class sh s e he
    rw [check_error_nonzero sh c s hc]
    rcases hli : _lazy_init sh s with ⟨s1, r⟩
    rw [hli] at he
    simp only at he
    subst he
    exact ⟨rfl, hclass.1⟩

/-- C10 witness: code 7 on the import-time state: with a working shim the
translation initializes and yields the `CudaError`; with a driverless shim it
yields the driver error instead. -/
theorem C10_check_error_inits_witness :
    (check_error goodShim 7 initState).1.initialized = true ∧
    (check_error goodShim 7 initState).2
      = some (.cudaError (cudaErrorMsg goodShim 7)) ∧
    check_error noDriverShim 7 initState
      = (initState, some (.assertionError noDriverMsg)) := by
  have hg := (C10_check_error_inits goodShim initState 7 (by decide) rfl).1
    (by decide)
  have hb := (C10_check_error_inits noDriverShim initState 7 (by decide) rfl).2
    (.assertionError noDriverMsg) (by decide)
  exact ⟨hg.1, hg.2, by rw [hb.1]; decide⟩

end TorchCuda
